import Mathlib

/-!
Shallow embedding of `src/wildfire_dnbr.py` (Forest_Wildfire_dnbr).

The script computes wildfire burn severity from pre/post-fire Sentinel-2
composites: NBR band arithmetic, a dNBR severity classification expressed as
an Earth Engine `where`-chain, an area computation, and two generated HTML
outputs (an interactive map and a dashboard).  Remote-service results
(image counts, the area value, per-pixel band values, the wall clock, and
Python's numeric formatting) are parameters of the model; everything the
script itself computes is translated from the source.

Numbers handled by the service are modelled as exact rationals (`ℚ`).
-/

namespace Wildfire

/-! ### Configuration constants (`wildfire_dnbr.py` lines 11-17) -/

def EE_PROJECT : String := "user-project-id"

def REGION_NAME : String := "Camarillo"

def BBOX : List ℚ := [-119.1, 34.2, -118.9, 34.4]

def PRE_FIRE_START : String := "2024-10-01"

def PRE_FIRE_DATE : String := "2024-11-06"

def POST_FIRE_START : String := "2024-12-01"

def POST_FIRE_DATE : String := "2024-12-31"

/-! ### Area computation (lines 35-37).
`area_sqm` is returned by the remote service (`region_of_interest.area().getInfo()`),
so it is a parameter here. -/

def area_sqkm (area_sqm : ℚ) : ℚ := area_sqm / 1000000

def area_ha (area_sqm : ℚ) : ℚ := area_sqm / 10000

/-! ### Earth Engine per-pixel operations used by the severity classification
(lines 99-104).  Earth Engine comparison images hold 1 where the comparison
holds and 0 otherwise; `And` is nonzero-conjunction; `where(test, v)` replaces
a pixel by `v` exactly where `test` is nonzero. -/

def eeLt (x t : ℚ) : ℚ := if x < t then 1 else 0

def eeGt (x t : ℚ) : ℚ := if t < x then 1 else 0

def eeAnd (a b : ℚ) : ℚ := if a ≠ 0 ∧ b ≠ 0 then 1 else 0

def eeMultiply (a b : ℚ) : ℚ := a * b

def eeWhere (input test v : ℚ) : ℚ := if test ≠ 0 then v else input

/-- Per-pixel translation of lines 99-104:
`dnbr.lt(0.05).multiply(0).where(dnbr.gt(0.05).And(dnbr.lt(0.27)), 1)
 .where(dnbr.gt(0.27).And(dnbr.lt(0.439)), 2)
 .where(dnbr.gt(0.439).And(dnbr.lt(0.659)), 3)
 .where(dnbr.gt(0.66), 4)`,
evaluated at one pixel whose dNBR value is `d`. -/
def severity (d : ℚ) : ℚ :=
  eeWhere
    (eeWhere
      (eeWhere
        (eeWhere (eeMultiply (eeLt d 0.05) 0)
          (eeAnd (eeGt d 0.05) (eeLt d 0.27)) 1)
        (eeAnd (eeGt d 0.27) (eeLt d 0.439)) 2)
      (eeAnd (eeGt d 0.439) (eeLt d 0.659)) 3)
    (eeGt d 0.66) 4

/-- Instrumented variant of `eeWhere` that records whether the pixel has been
assigned a value by some clause of the chain: `none` means no clause so far
has matched. -/
def eeWhereT (input : Option ℚ) (test v : ℚ) : Option ℚ :=
  if test ≠ 0 then some v else input

/-- The same `where`-chain as `severity`, instrumented to record whether any
clause of the classification logic actually assigned a class to the pixel.
The base raster `dnbr.lt(0.05).multiply(0)` assigns class `0` (its value,
`1 * 0`) exactly where `dnbr.lt(0.05)` holds; each subsequent `where` clause
assigns its class where its test is nonzero.  `none` means the pixel's value
is merely the untouched zero background, not an assigned class. -/
def severityAssigned (d : ℚ) : Option ℚ :=
  eeWhereT
    (eeWhereT
      (eeWhereT
        (eeWhereT
          (if eeLt d 0.05 ≠ 0 then some (eeMultiply (eeLt d 0.05) 0) else none)
          (eeAnd (eeGt d 0.05) (eeLt d 0.27)) 1)
        (eeAnd (eeGt d 0.27) (eeLt d 0.439)) 2)
      (eeAnd (eeGt d 0.439) (eeLt d 0.659)) 3)
    (eeGt d 0.66) 4

/-! ### Map centring (lines 123-124) and output paths (lines 155, 383).
`BBOX` is indexed like the Python list; out-of-range indices do not occur. -/

def center_lat (bbox : List ℚ) : ℚ := (bbox.getD 1 0 + bbox.getD 3 0) / 2

def center_lon (bbox : List ℚ) : ℚ := (bbox.getD 0 0 + bbox.getD 2 0) / 2

def map_path : String := "./outputs/map_" ++ REGION_NAME ++ ".html"

def dashboard_filename : String :=
  "./outputs/wildfire_dashboard_" ++ REGION_NAME ++ ".html"

/-! ### Raster model for the band arithmetic (lines 71-95).
A band is a per-pixel partial map to rationals (`none` = masked pixel); an
image maps band names to bands; a collection is a list of images.  Binary
Earth Engine operations act pointwise on unmasked pixels; `clip` masks
pixels outside the region; `median` reduces the unmasked per-pixel values of
a collection.  Band renaming (`rename`) changes only metadata and is not
modelled. -/

def Band : Type := Nat → Option ℚ

def Band.map2 (f : ℚ → ℚ → ℚ) (a b : Band) : Band := fun p =>
  match a p, b p with
  | some x, some y => some (f x y)
  | _, _ => none

def Band.subtract (a b : Band) : Band := Band.map2 (fun x y => x - y) a b

def Band.add (a b : Band) : Band := Band.map2 (fun x y => x + y) a b

def Band.divide (a b : Band) : Band := Band.map2 (fun x y => x / y) a b

def EEImage : Type := String → Band

def EEImage.select (img : EEImage) (b : String) : Band := img b

def Region : Type := Nat → Bool

def EEImage.clip (img : EEImage) (roi : Region) : EEImage := fun b p =>
  if roi p then img b p else none

def ImageCollection : Type := List EEImage

/-- Median of a list of rationals: middle element of the sorted list, or the
mean of the two middle elements for an even count; `none` on the empty
list. -/
def medianQ (xs : List ℚ) : Option ℚ :=
  let s := List.insertionSort (fun a b => a ≤ b) xs
  if s.length % 2 = 1 then s.get? (s.length / 2)
  else
    match s.get? (s.length / 2 - 1), s.get? (s.length / 2) with
    | some a, some b => some ((a + b) / 2)
    | _, _ => none

def ImageCollection.median (c : ImageCollection) : EEImage := fun b p =>
  medianQ ((c.map (fun img => img b p)).filterMap id)

/-! Lines 71-95, parametrised by the two image collections (whose contents
live on the remote service) and the region of interest. -/

def pre_fire_image (prefire_images : ImageCollection) (roi : Region) :
    EEImage :=
  (ImageCollection.median prefire_images).clip roi

def post_fire_image (postfire_images : ImageCollection) (roi : Region) :
    EEImage :=
  (ImageCollection.median postfire_images).clip roi

def prefire_nir (pre : ImageCollection) (roi : Region) : Band :=
  (pre_fire_image pre roi).select "B8"

def prefire_swir (pre : ImageCollection) (roi : Region) : Band :=
  (pre_fire_image pre roi).select "B12"

def postfire_nir (post : ImageCollection) (roi : Region) : Band :=
  (post_fire_image post roi).select "B8"

def postfire_swir (post : ImageCollection) (roi : Region) : Band :=
  (post_fire_image post roi).select "B12"

def prefire_nbr (pre : ImageCollection) (roi : Region) : Band :=
  ((prefire_nir pre roi).subtract (prefire_swir pre roi)).divide
    ((prefire_nir pre roi).add (prefire_swir pre roi))

def postfire_nbr (post : ImageCollection) (roi : Region) : Band :=
  ((postfire_nir post roi).subtract (postfire_swir post roi)).divide
    ((postfire_nir post roi).add (postfire_swir post roi))

def dnbr (pre post : ImageCollection) (roi : Region) : Band :=
  (prefire_nbr pre roi).subtract (postfire_nbr post roi)

/-! ### Script control flow (whole file, lines 19-387).
The script is a single top-to-bottom procedure.  Values produced outside the
script are inputs: whether `ee.Initialize` succeeded, the area returned by
the service, and the two image counts.  Python's `f"{x:.2f}"` float
formatting and `f"{BBOX}"` list formatting are abstracted as the functions
`fmt2` and `fmtBBox`; `print` calls are collected in order, one entry per
call; `exit()` at line 68 stops the script, so nothing after it runs. -/

def bar50 : String := String.mk (List.replicate 50 '=')

structure ScriptInput where
  connect_ok : Bool
  area_sqm : ℚ
  pre_count : Nat
  post_count : Nat

structure ScriptResult where
  printed : List String
  filesWritten : List String
  computedSeverity : Bool
  mapCenter : Option (ℚ × ℚ)

/-- Lines 19-21. -/
def headerPrints (fmtBBox : List ℚ → String) : List String :=
  ["\nStudy Area: " ++ REGION_NAME,
   "Coordinates: " ++ fmtBBox BBOX,
   "Date Range: " ++ PRE_FIRE_DATE ++ " to " ++ POST_FIRE_DATE]

/-- Lines 24-29: the `try`/`except` around `ee.Initialize`. -/
def connPrints (connect_ok : Bool) : List String :=
  if connect_ok then ["Google Earth Engine connected Successfully"]
  else ["Google Earth Engine connection failed", "Run: earthengine authenticate"]

/-- Lines 64-67: remediation hints printed when a window has no images. -/
def noImagesPrints : List String :=
  [" No images found! Try:",
   "  1. Expanding date range",
   "  2. Increasing cloud cover threshold",
   "  3. Checking coordinates"]

/-- Lines 74-162 and 387: prints of the processing steps that run only when
both image windows are non-empty. -/
def stepPrints : List String :=
  ["✅ Created cloud-free composite image for pre-fire images)",
   "\n" ++ bar50, "STEP 2: Calculating Spectral Indices", bar50,
   "✓ NBR calculated",
   "\n" ++ bar50, "STEP 4: Creating Interactive Map", bar50,
   "Interactive map saved: " ++ map_path,
   "\n" ++ bar50, "STEP 7: Creating Interactive HTML Dashboard", bar50,
   "Interactive dashboard saved: " ++ dashboard_filename]

/-- Lines 38-68 and onwards: everything printed after the connection
attempt. -/
def restPrints (fmt2 : ℚ → String) (inp : ScriptInput) : List String :=
  ["Area: " ++ fmt2 (area_sqkm inp.area_sqm) ++ " km²",
   "Area: " ++ fmt2 (area_ha inp.area_sqm) ++ " ha",
   "\n" ++ bar50, "Loading Sentinel-2 Data", bar50,
   "\nFound " ++ toString inp.pre_count ++ ", " ++ toString inp.post_count
     ++ " Sentinel-2 images"] ++
  (if inp.pre_count = 0 ∨ inp.post_count = 0 then noImagesPrints
   else stepPrints)

/-- The observable behaviour of one run of the script: what it prints, which
files it writes (the map at line 156, the dashboard at lines 384-385), whether
the severity classification step is reached (lines 99-104), and the centre
handed to `geemap.Map` (line 125). -/
def runScript (fmt2 : ℚ → String) (fmtBBox : List ℚ → String)
    (inp : ScriptInput) : ScriptResult :=
  { printed := headerPrints fmtBBox ++ connPrints inp.connect_ok ++
      restPrints fmt2 inp
    filesWritten :=
      if inp.pre_count = 0 ∨ inp.post_count = 0 then []
      else [map_path, dashboard_filename]
    computedSeverity :=
      if inp.pre_count = 0 ∨ inp.post_count = 0 then false else true
    mapCenter :=
      if inp.pre_count = 0 ∨ inp.post_count = 0 then none
      else some (center_lat BBOX, center_lon BBOX) }

/-! ### Dashboard HTML template (lines 166-380).
The f-string is a fixed template with ten interpolation holes (the region
name five times, the two analysis dates, the two formatted area figures and
the generation timestamp).  The literal chunks between the holes follow, cut
additionally at the `<title>` element, the `Analysis Period` line and the
`<iframe>` tag; `\x7b`/`\x7d` denote the literal braces of the CSS and
JavaScript. -/

def dhSegHead : String :=
  "
<!DOCTYPE html>
<html lang=\"en\">
<head>
    <meta charset=\"UTF-8\">
    <meta name=\"viewport\" content=\"width=device-width, initial-scale=1.0\">
    "

def dhSegStyle : String :=
  "
    <style>
        
        *\x7b
            box-sizing: border-box;
            font-family: Arial, sans-serif;
            
        \x7d
        
        body \x7b
            background-color: #f5f5f5;
            padding: 0;
            margin: 0;
            
            width: 100%;
            height: 95vh;
            overflow: hidden;
        \x7d
        
        .main-container \x7b
            display: flex;
            flex-direction: row;
            height: 95vh;
            padding: 10px;
        \x7d
        
        .side-bar \x7b
            width: 300px;
            height: calc(98vh - 20px);
            background-color: blanchedalmond;
            padding: 20px;
            margin: 10px;
            border-radius: 10px;
            box-shadow: 0 4px 6px rgba(0,0,0,0.1);
            overflow-y: auto;
            text-align: justify;
            
        \x7d
        
        .main-content \x7b
            width: calc(100% - 340px);
            height: calc(98vh - 20px);
            background-color: beige;
            padding: 20px;
            margin: 10px;
            border-radius: 10px;
            box-shadow: 0 4px 6px rgba(0,0,0,0.1);
            display: flex;
            flex-direction: column;
        \x7d
        
        .header \x7b
            width: 100%;
            background-color: burlywood;
            padding: 20px;
            border-radius: 10px;
            margin-bottom: 20px;
            box-shadow: 0 4px 6px rgba(0,0,0,0.1);
            text-align: center;
        \x7d   
        
        .header .dashboard-title \x7b
            font-family: 'Segoe UI', Tahoma, Geneva, Verdana, sans-serif;
            font-size: 22px;
            font-weight: bold;
            font-style: italic;
            margin-bottom: 10px;
            color: #333;
        \x7d
        
        .content \x7b
            display: flex;
            flex-direction: column;
            gap: 20px;
        \x7d
        
        .container \x7b
            background-color: rgba(255, 255, 255, 0.8);
            padding: 15px;
            border-radius: 8px;
            
            font-size: 12px;
            color: #333;
        \x7d
        
        .info-box \x7b
            background-color: rgba(255, 255, 255, 0.8);
            padding: 15px;
            border-radius: 8px;
            box-shadow: 0 2px 4px rgba(0,0,0,0.1);
        \x7d
        
        .info-box h3 \x7b
            color: #8B4513;
            margin-top: 0;
            margin-bottom: 10px;
            font-size: 18px;
        \x7d
        
        .info-box p \x7b
            margin: 8px 0;
            line-height: 1.5;
            color: #333;
        \x7d
        
        .footer \x7b
            background-color: rgba(255, 255, 255, 0.8);
            padding: 15px;
            border-radius: 8px;
            font-size: 12px;
            color: #666;
            text-align: center;
            margin-top: 10px;
        \x7d
        
        .footer p \x7b
            margin: 5px 0;
        \x7d
        
        .map \x7b
            width: 100%;
            height: 100%;
            border-radius: 8px;
            overflow: hidden;
        \x7d
        
        iframe \x7b
            width: 100%;
            height: 100%;
            border: none;
            display: block;
        \x7d
        
        /* Custom scrollbar */
        .side-bar::-webkit-scrollbar \x7b
            width: 8px;
        \x7d
        
        .side-bar::-webkit-scrollbar-track \x7b
            background: rgba(255, 255, 255, 0.3);
            border-radius: 10px;
        \x7d
        
        .side-bar::-webkit-scrollbar-thumb \x7b
            background: rgba(139, 69, 19, 0.5);
            border-radius: 10px;
        \x7d
        
        .side-bar::-webkit-scrollbar-thumb:hover \x7b
            background: rgba(139, 69, 19, 0.7);
        \x7d
    </style>
</head>
<body>
    <div class=\"main-container\">
        <div class=\"side-bar\">
            <div class=\"header\">
                <div class=\"dashboard-title\">🔥 Wildfire Burn Severity Dashboard</div>
            </div>
            <div class=\"content\">
                <div class=\"container\">
                    <div style=\"font-size: 18px; font-weight: bold; margin-bottom: 8px;\">Region: "

def dhSegPeriodOpen : String :=
  "</div>
                    <div>"

def dhSegOverview : String :=
  "</div>
                
                    <h3>Project Overview</h3>
                    <p>This dashboard displays burn severity analysis using Sentinel-2 satellite imagery. The dNBR (differenced Normalized Burn Ratio) method is used to classify burn severity into five categories.</p>
                    <p><strong>Total Study Area:</strong> "

def dhSegMethods : String :=
  " hectares)</p>
                </div>

                <div class=\"container\">
                    <h3>📋 Data Sources & Methods</h3>
                    <p><strong>Satellite Data:</strong> Sentinel-2 Level-2A Surface Reflectance</p>
                    <p><strong>Analysis Method:</strong> dNBR (differenced Normalized Burn Ratio)</p>
                    <p><strong>Resolution:</strong> 30 meters</p>
                    <p><strong>Cloud Filter:</strong> &lt; 20% cloud coverage</p>
                    <p><strong>Generated:</strong> "

def dhSegMapOpen : String :=
  "</p>
                </div>
                <div class=\"footer\">
                    <p>Wildfire Burn Severity Analysis Dashboard | Generated using Google Earth Engine and Python</p>
                    <p>Data: Copernicus Sentinel-2 | Method: dNBR Classification</p>
                </div>
            </div>
        </div>
        <div class=\"main-content\">
            <div class=\"map\">
                "

def dhSegScriptOpen : String :=
  "
            </div>
        </div>
    </div>
    <script>
        // Load the map initially
        document.getElementById('mapFrame').src = 'map_"

def dhSegScriptMid : String :=
  ".html';
        
        // Function to handle layer switching
        function showLayer(layerType) \x7b
            alert('In a full implementation, this would control map layers\\n\\nSelected: ' + layerType + ' layer');
        \x7d
        
        // Auto-refresh iframe every 30 seconds to ensure it loads
        setTimeout(function() \x7b
            var iframe = document.getElementById('mapFrame');
            iframe.src = iframe.src;
        \x7d, 30000);
        
        console.log('Wildfire Dashboard loaded for "

def dhSegTail : String :=
  "');
    </script>
</body>
</html>
"

/-- Lines 166-380: the dashboard HTML string.  `fmt2` stands for Python's
`:.2f` float formatting and `now_str` for
`datetime.now().strftime('%Y-%m-%d %H:%M:%S')`. -/
def dashboard_html (fmt2 : ℚ → String) (area_sqm : ℚ) (now_str : String) :
    String :=
  dhSegHead ++ "<title>Wildfire Dashboard - " ++ REGION_NAME ++ "</title>" ++
  dhSegStyle ++ REGION_NAME ++ dhSegPeriodOpen ++ "Analysis Period: " ++
  PRE_FIRE_DATE ++ " to " ++ POST_FIRE_DATE ++ dhSegOverview ++
  fmt2 (area_sqkm area_sqm) ++ " km² (" ++ fmt2 (area_ha area_sqm) ++
  dhSegMethods ++ now_str ++ dhSegMapOpen ++
  "<iframe id=\"mapFrame\" src=\"map_" ++ REGION_NAME ++
  ".html\"></iframe>" ++ dhSegScriptOpen ++ REGION_NAME ++ dhSegScriptMid ++
  REGION_NAME ++ dhSegTail

/-! ### Concrete single-image collections used to evaluate the band model -/

def witImgPre : EEImage := fun b _ =>
  if b = "B8" then some 5 else if b = "B12" then some 1 else none

def witImgPost : EEImage := fun b _ =>
  if b = "B8" then some 1 else if b = "B12" then some 3 else none

def witRoi : Region := fun _ => true

/-! ### Concrete script inputs used to evaluate the control-flow model -/

def witInputZero : ScriptInput :=
  { connect_ok := true, area_sqm := 0, pre_count := 0, post_count := 0 }

def witInputFail : ScriptInput :=
  { connect_ok := false, area_sqm := 0, pre_count := 1, post_count := 1 }

def witInputOk : ScriptInput :=
  { connect_ok := true, area_sqm := 0, pre_count := 1, post_count := 1 }


/-! ### Helper evaluation lemmas for the `where`-chain -/

theorem eeLt_of_lt {x t : ℚ} (h : x < t) : eeLt x t = 1 := by
  simp [eeLt, h]

theorem eeLt_of_ge {x t : ℚ} (h : t ≤ x) : eeLt x t = 0 := by
  simp [eeLt, not_lt.mpr h]

theorem eeGt_of_gt {x t : ℚ} (h : t < x) : eeGt x t = 1 := by
  simp [eeGt, h]

theorem eeGt_of_le {x t : ℚ} (h : x ≤ t) : eeGt x t = 0 := by
  simp [eeGt, not_lt.mpr h]

theorem eeAnd_zero_left (b : ℚ) : eeAnd 0 b = 0 := by
  simp [eeAnd]

theorem eeAnd_zero_right (a : ℚ) : eeAnd a 0 = 0 := by
  simp [eeAnd]

theorem eeAnd_one_one : eeAnd 1 1 = 1 := by
  norm_num [eeAnd]

theorem eeWhere_test_zero (input v : ℚ) : eeWhere input 0 v = input := by
  simp [eeWhere]

theorem eeWhere_test_one (input v : ℚ) : eeWhere input 1 v = v := by
  norm_num [eeWhere]

theorem eeWhereT_test_zero (input : Option ℚ) (v : ℚ) :
    eeWhereT input 0 v = input := by
  simp [eeWhereT]

theorem eeMultiply_zero (a : ℚ) : eeMultiply a 0 = 0 := mul_zero a

/-- C1: for every per-pixel dNBR value in the stated open intervals, the
severity classification returns the matching class: 0 for `d < 0.05`, 1 for
`0.05 < d < 0.27`, 2 for `0.27 < d < 0.439`, 3 for `0.439 < d < 0.659`, and
4 for `d > 0.66`. -/
theorem severity_open_intervals (d : ℚ) :
    (d < 0.05 → severity d = 0) ∧
    (0.05 < d ∧ d < 0.27 → severity d = 1) ∧
    (0.27 < d ∧ d < 0.439 → severity d = 2) ∧
    (0.439 < d ∧ d < 0.659 → severity d = 3) ∧
    (0.66 < d → severity d = 4) := by
  refine ⟨?_, ?_, ?_, ?_, ?_⟩
  · intro h
    rw [severity, eeGt_of_le (show d ≤ (0.66:ℚ) by linarith), eeWhere_test_zero,
        eeGt_of_le (show d ≤ (0.439:ℚ) by linarith), eeAnd_zero_left, eeWhere_test_zero,
        eeGt_of_le (show d ≤ (0.27:ℚ) by linarith), eeAnd_zero_left, eeWhere_test_zero,
        eeGt_of_le (show d ≤ (0.05:ℚ) by linarith), eeAnd_zero_left, eeWhere_test_zero,
        eeMultiply_zero]
  · rintro ⟨h1, h2⟩
    rw [severity, eeGt_of_le (show d ≤ (0.66:ℚ) by linarith), eeWhere_test_zero,
        eeGt_of_le (show d ≤ (0.439:ℚ) by linarith), eeAnd_zero_left, eeWhere_test_zero,
        eeGt_of_le (show d ≤ (0.27:ℚ) by linarith), eeAnd_zero_left, eeWhere_test_zero,
        eeGt_of_gt h1, eeLt_of_lt h2, eeAnd_one_one, eeWhere_test_one]
  · rintro ⟨h1, h2⟩
    rw [severity, eeGt_of_le (show d ≤ (0.66:ℚ) by linarith), eeWhere_test_zero,
        eeGt_of_le (show d ≤ (0.439:ℚ) by linarith), eeAnd_zero_left, eeWhere_test_zero,
        eeGt_of_gt h1, eeLt_of_lt h2, eeAnd_one_one, eeWhere_test_one]
  · rintro ⟨h1, h2⟩
    rw [severity, eeGt_of_le (show d ≤ (0.66:ℚ) by linarith), eeWhere_test_zero,
        eeGt_of_gt h1, eeLt_of_lt h2, eeAnd_one_one, eeWhere_test_one]
  · intro h
    rw [severity, eeGt_of_gt h, eeWhere_test_one]

/-- Witness for C1: each branch of `severity_open_intervals` applied at a
concrete dNBR value inside its interval. -/
theorem severity_open_intervals_witness :
    ((0.01:ℚ) < 0.05 ∧ severity 0.01 = 0) ∧
    (((0.05:ℚ) < 0.1 ∧ (0.1:ℚ) < 0.27) ∧ severity 0.1 = 1) ∧
    (((0.27:ℚ) < 0.3 ∧ (0.3:ℚ) < 0.439) ∧ severity 0.3 = 2) ∧
    (((0.439:ℚ) < 0.5 ∧ (0.5:ℚ) < 0.659) ∧ severity 0.5 = 3) ∧
    ((0.66:ℚ) < 0.7 ∧ severity 0.7 = 4) :=
  ⟨⟨by norm_num, (severity_open_intervals 0.01).1 (by norm_num)⟩,
   ⟨⟨by norm_num, by norm_num⟩,
     (severity_open_intervals 0.1).2.1 ⟨by norm_num, by norm_num⟩⟩,
   ⟨⟨by norm_num, by norm_num⟩,
     (severity_open_intervals 0.3).2.2.1 ⟨by norm_num, by norm_num⟩⟩,
   ⟨⟨by norm_num, by norm_num⟩,
     (severity_open_intervals 0.5).2.2.2.1 ⟨by norm_num, by norm_num⟩⟩,
   ⟨by norm_num, (severity_open_intervals 0.7).2.2.2.2 (by norm_num)⟩⟩

/-- C2: a dNBR value landing exactly on a classification boundary
(0.05, 0.27, 0.439) or in the gap between 0.659 and 0.66 is assigned no
severity class by the classification logic: neither the base
`dnbr.lt(0.05).multiply(0)` guard nor any `where` clause matches, so the
pixel keeps the untouched zero background. -/
theorem severity_boundary_unassigned (d : ℚ)
    (h : d = 0.05 ∨ d = 0.27 ∨ d = 0.439 ∨ (0.659 ≤ d ∧ d ≤ 0.66)) :
    severityAssigned d = none := by
  rcases h with h | h | h | ⟨h1, h2⟩
  · subst h
    rw [severityAssigned,
        eeGt_of_le (show (0.05:ℚ) ≤ (0.66:ℚ) by norm_num), eeWhereT_test_zero,
        eeGt_of_le (show (0.05:ℚ) ≤ (0.439:ℚ) by norm_num), eeAnd_zero_left,
        eeWhereT_test_zero,
        eeGt_of_le (show (0.05:ℚ) ≤ (0.27:ℚ) by norm_num), eeAnd_zero_left,
        eeWhereT_test_zero,
        eeGt_of_le (show (0.05:ℚ) ≤ (0.05:ℚ) by norm_num), eeAnd_zero_left,
        eeWhereT_test_zero,
        eeLt_of_ge (show (0.05:ℚ) ≤ (0.05:ℚ) by norm_num)]
    simp
  · subst h
    rw [severityAssigned,
        eeGt_of_le (show (0.27:ℚ) ≤ (0.66:ℚ) by norm_num), eeWhereT_test_zero,
        eeGt_of_le (show (0.27:ℚ) ≤ (0.439:ℚ) by norm_num), eeAnd_zero_left,
        eeWhereT_test_zero,
        eeGt_of_le (show (0.27:ℚ) ≤ (0.27:ℚ) by norm_num), eeAnd_zero_left,
        eeWhereT_test_zero,
        eeLt_of_ge (show (0.27:ℚ) ≤ (0.27:ℚ) by norm_num), eeAnd_zero_right,
        eeWhereT_test_zero,
        eeLt_of_ge (show (0.05:ℚ) ≤ (0.27:ℚ) by norm_num)]
    simp
  · subst h
    rw [severityAssigned,
        eeGt_of_le (show (0.439:ℚ) ≤ (0.66:ℚ) by norm_num), eeWhereT_test_zero,
        eeGt_of_le (show (0.439:ℚ) ≤ (0.439:ℚ) by norm_num), eeAnd_zero_left,
        eeWhereT_test_zero,
        eeLt_of_ge (show (0.439:ℚ) ≤ (0.439:ℚ) by norm_num), eeAnd_zero_right,
        eeWhereT_test_zero,
        eeLt_of_ge (show (0.27:ℚ) ≤ (0.439:ℚ) by norm_num), eeAnd_zero_right,
        eeWhereT_test_zero,
        eeLt_of_ge (show (0.05:ℚ) ≤ (0.439:ℚ) by norm_num)]
    simp
  · rw [severityAssigned, eeGt_of_le h2, eeWhereT_test_zero,
        eeLt_of_ge h1, eeAnd_zero_right, eeWhereT_test_zero,
        eeLt_of_ge (show (0.439:ℚ) ≤ d by linarith), eeAnd_zero_right,
        eeWhereT_test_zero,
        eeLt_of_ge (show (0.27:ℚ) ≤ d by linarith), eeAnd_zero_right,
        eeWhereT_test_zero,
        eeLt_of_ge (show (0.05:ℚ) ≤ d by linarith)]
    simp

/-- Witness for C2: `severity_boundary_unassigned` applied at the boundary
value 0.05. -/
theorem severity_boundary_unassigned_witness :
    ((0.05:ℚ) = 0.05 ∨ (0.05:ℚ) = 0.27 ∨ (0.05:ℚ) = 0.439 ∨
      ((0.659:ℚ) ≤ 0.05 ∧ (0.05:ℚ) ≤ 0.66)) ∧
    severityAssigned 0.05 = none :=
  ⟨Or.inl rfl, severity_boundary_unassigned 0.05 (Or.inl rfl)⟩

/-- C10: for every per-pixel dNBR value, including boundary values and the
0.659-0.66 gap, the severity output is one of 0, 1, 2, 3, 4: the
`where`-chain starts from `dnbr.lt(0.05).multiply(0)`, a raster that is zero
everywhere, so every pixel carries a numeric class. -/
theorem severity_total (d : ℚ) :
    severity d = 0 ∨ severity d = 1 ∨ severity d = 2 ∨ severity d = 3 ∨
      severity d = 4 := by
  rw [severity]
  unfold eeWhere
  split_ifs <;> norm_num [eeMultiply]

/-- C4: for every area value returned by the service, the hectare figure
equals the square-kilometre figure multiplied by 100
(`area_sqm / 10000 = (area_sqm / 1000000) * 100`). -/
theorem area_ha_eq_area_sqkm_mul_100 (area_sqm : ℚ) :
    area_ha area_sqm = area_sqkm area_sqm * 100 := by
  unfold area_ha area_sqkm
  ring

/-- C7: at every in-region pixel where the two median composites carry NIR
(`B8`) and SWIR (`B12`) values, the dNBR input is
`NBR_pre - NBR_post` with `NBR = (NIR - SWIR) / (NIR + SWIR)` computed on
the median composite of each date window. -/
theorem dnbr_is_nbr_difference (pre post : ImageCollection) (roi : Region)
    (p : Nat) (preN preS postN postS : ℚ)
    (hroi : roi p = true)
    (hpreN : ImageCollection.median pre "B8" p = some preN)
    (hpreS : ImageCollection.median pre "B12" p = some preS)
    (hpostN : ImageCollection.median post "B8" p = some postN)
    (hpostS : ImageCollection.median post "B12" p = some postS) :
    dnbr pre post roi p =
      some ((preN - preS) / (preN + preS) -
        (postN - postS) / (postN + postS)) := by
  simp [dnbr, prefire_nbr, postfire_nbr, prefire_nir, prefire_swir,
        postfire_nir, postfire_swir, pre_fire_image, post_fire_image,
        EEImage.select, EEImage.clip, Band.subtract, Band.add, Band.divide,
        Band.map2, hroi, hpreN, hpreS, hpostN, hpostS]

/-- Witness for C7: `dnbr_is_nbr_difference` on two singleton collections
with constant bands (pre: NIR 5, SWIR 1; post: NIR 1, SWIR 3). -/
theorem dnbr_is_nbr_difference_witness :
    witRoi 0 = true ∧
    ImageCollection.median [witImgPre] "B8" 0 = some 5 ∧
    ImageCollection.median [witImgPre] "B12" 0 = some 1 ∧
    ImageCollection.median [witImgPost] "B8" 0 = some 1 ∧
    ImageCollection.median [witImgPost] "B12" 0 = some 3 ∧
    dnbr [witImgPre] [witImgPost] witRoi 0 =
      some (((5:ℚ) - 1) / (5 + 1) - (1 - 3) / (1 + 3)) :=
  ⟨rfl, rfl, rfl, rfl, rfl,
   dnbr_is_nbr_difference [witImgPre] [witImgPost] witRoi 0 5 1 1 3 rfl
     rfl rfl rfl rfl⟩

/-- C9: the interactive map is centred at the arithmetic midpoint of the
bounding box: for every bounding-box configuration, the centre latitude is
`(BBOX[1] + BBOX[3]) / 2` and the centre longitude `(BBOX[0] + BBOX[2]) / 2`;
and every run that reaches map creation hands exactly that centre for the
configured `BBOX` to the map. -/
theorem map_center_is_bbox_midpoint :
    (∀ b0 b1 b2 b3 : ℚ,
      center_lat [b0, b1, b2, b3] = (b1 + b3) / 2 ∧
      center_lon [b0, b1, b2, b3] = (b0 + b2) / 2) ∧
    ∀ (fmt2 : ℚ → String) (fmtBBox : List ℚ → String) (inp : ScriptInput),
      inp.pre_count ≠ 0 → inp.post_count ≠ 0 →
      (runScript fmt2 fmtBBox inp).mapCenter =
        some (center_lat BBOX, center_lon BBOX) := by
  constructor
  · intro b0 b1 b2 b3
    exact ⟨rfl, rfl⟩
  · intro fmt2 fmtBBox inp h1 h2
    simp [runScript, h1, h2]

/-- Witness for C9: `map_center_is_bbox_midpoint` at a concrete bounding box
and a concrete run with one image in each window. -/
theorem map_center_is_bbox_midpoint_witness :
    center_lat [0, 1, 2, 3] = ((1:ℚ) + 3) / 2 ∧
    witInputOk.pre_count ≠ 0 ∧ witInputOk.post_count ≠ 0 ∧
    (runScript (fun _ => "") (fun _ => "") witInputOk).mapCenter =
      some (center_lat BBOX, center_lon BBOX) :=
  ⟨(map_center_is_bbox_midpoint.1 0 1 2 3).1, by decide, by decide,
   map_center_is_bbox_midpoint.2 (fun _ => "") (fun _ => "") witInputOk
     (by decide) (by decide)⟩

/-- C3: when either date window matched zero images, the script prints the
remediation hints and terminates before classification: the severity step is
never reached and neither the map nor the dashboard file is written. -/
theorem no_images_halts (fmt2 : ℚ → String) (fmtBBox : List ℚ → String)
    (inp : ScriptInput) (h : inp.pre_count = 0 ∨ inp.post_count = 0) :
    (runScript fmt2 fmtBBox inp).filesWritten = [] ∧
    (runScript fmt2 fmtBBox inp).computedSeverity = false ∧
    " No images found! Try:" ∈ (runScript fmt2 fmtBBox inp).printed ∧
    "  1. Expanding date range" ∈ (runScript fmt2 fmtBBox inp).printed ∧
    "  2. Increasing cloud cover threshold" ∈
      (runScript fmt2 fmtBBox inp).printed ∧
    "  3. Checking coordinates" ∈ (runScript fmt2 fmtBBox inp).printed := by
  simp [runScript, restPrints, noImagesPrints, headerPrints, connPrints, h]

/-- Witness for C3: `no_images_halts` on a run with zero pre-fire images. -/
theorem no_images_halts_witness :
    (witInputZero.pre_count = 0 ∨ witInputZero.post_count = 0) ∧
    (runScript (fun _ => "") (fun _ => "") witInputZero).filesWritten = [] :=
  ⟨Or.inl rfl,
   (no_images_halts (fun _ => "") (fun _ => "") witInputZero (Or.inl rfl)).1⟩

/-- C5: if the connection to the service fails, the script prints the
re-authentication instruction and execution continues to all subsequent
steps rather than terminating: every later observable (the remaining prints,
the files written, whether classification runs, the map centre) is exactly
what a successfully-connected run produces. -/
theorem connection_failure_continues (fmt2 : ℚ → String)
    (fmtBBox : List ℚ → String) (inp : ScriptInput)
    (h : inp.connect_ok = false) :
    "Google Earth Engine connection failed" ∈
      (runScript fmt2 fmtBBox inp).printed ∧
    "Run: earthengine authenticate" ∈ (runScript fmt2 fmtBBox inp).printed ∧
    (runScript fmt2 fmtBBox inp).printed =
      headerPrints fmtBBox ++
        ["Google Earth Engine connection failed",
         "Run: earthengine authenticate"] ++ restPrints fmt2 inp ∧
    (runScript fmt2 fmtBBox { inp with connect_ok := true }).printed =
      headerPrints fmtBBox ++
        ["Google Earth Engine connected Successfully"] ++
        restPrints fmt2 inp ∧
    (runScript fmt2 fmtBBox inp).filesWritten =
      (runScript fmt2 fmtBBox { inp with connect_ok := true }).filesWritten ∧
    (runScript fmt2 fmtBBox inp).computedSeverity =
      (runScript fmt2 fmtBBox { inp with connect_ok := true }).computedSeverity ∧
    (runScript fmt2 fmtBBox inp).mapCenter =
      (runScript fmt2 fmtBBox { inp with connect_ok := true }).mapCenter := by
  simp [runScript, connPrints, restPrints, h]

/-- Witness for C5: `connection_failure_continues` on a failed-connection
run with one image in each window. -/
theorem connection_failure_continues_witness :
    witInputFail.connect_ok = false ∧
    "Run: earthengine authenticate" ∈
      (runScript (fun _ => "") (fun _ => "") witInputFail).printed ∧
    (runScript (fun _ => "") (fun _ => "") witInputFail).filesWritten =
      (runScript (fun _ => "") (fun _ => "")
        { witInputFail with connect_ok := true }).filesWritten :=
  ⟨rfl,
   (connection_failure_continues (fun _ => "") (fun _ => "") witInputFail
     rfl).2.1,
   (connection_failure_continues (fun _ => "") (fun _ => "") witInputFail
     rfl).2.2.2.2.1⟩

/-- C8: a run that reaches the output stage writes exactly two files, the
interactive map at `./outputs/map_<region>.html` and the dashboard at
`./outputs/wildfire_dashboard_<region>.html`, with `<region>` the configured
region name. -/
theorem output_file_paths (fmt2 : ℚ → String) (fmtBBox : List ℚ → String)
    (inp : ScriptInput) (h1 : inp.pre_count ≠ 0) (h2 : inp.post_count ≠ 0) :
    (runScript fmt2 fmtBBox inp).filesWritten =
      [map_path, dashboard_filename] ∧
    map_path = "./outputs/map_" ++ REGION_NAME ++ ".html" ∧
    dashboard_filename =
      "./outputs/wildfire_dashboard_" ++ REGION_NAME ++ ".html" ∧
    map_path = "./outputs/map_Camarillo.html" ∧
    dashboard_filename = "./outputs/wildfire_dashboard_Camarillo.html" := by
  refine ⟨?_, rfl, rfl, rfl, rfl⟩
  simp [runScript, h1, h2]

/-- Witness for C8: `output_file_paths` on a run with one image in each
window. -/
theorem output_file_paths_witness :
    witInputOk.pre_count ≠ 0 ∧ witInputOk.post_count ≠ 0 ∧
    (runScript (fun _ => "") (fun _ => "") witInputOk).filesWritten =
      [map_path, dashboard_filename] :=
  ⟨by decide, by decide,
   (output_file_paths (fun _ => "") (fun _ => "") witInputOk (by decide)
     (by decide)).1⟩

/-- C6: for every execution that writes the dashboard (whatever the
formatted area figures and the timestamp are), the dashboard HTML contains
the literal region name inside the `<title>` element and inside the iframe
source path, and contains the literal analysis date range. -/
theorem dashboard_contains_region_and_dates (fmt2 : ℚ → String)
    (area_sqm : ℚ) (now_str : String) :
    (∃ p q : String, dashboard_html fmt2 area_sqm now_str =
      p ++ ("<title>Wildfire Dashboard - " ++ REGION_NAME ++ "</title>")
        ++ q) ∧
    (∃ p q : String, dashboard_html fmt2 area_sqm now_str =
      p ++ ("<iframe id=\"mapFrame\" src=\"map_" ++ REGION_NAME ++
        ".html\"></iframe>") ++ q) ∧
    (∃ p q : String, dashboard_html fmt2 area_sqm now_str =
      p ++ ("Analysis Period: " ++ PRE_FIRE_DATE ++ " to " ++
        POST_FIRE_DATE) ++ q) := by
  refine ⟨⟨dhSegHead,
      dhSegStyle ++ REGION_NAME ++ dhSegPeriodOpen ++ "Analysis Period: " ++
        PRE_FIRE_DATE ++ " to " ++ POST_FIRE_DATE ++ dhSegOverview ++
        fmt2 (area_sqkm area_sqm) ++ " km² (" ++ fmt2 (area_ha area_sqm) ++
        dhSegMethods ++ now_str ++ dhSegMapOpen ++
        "<iframe id=\"mapFrame\" src=\"map_" ++ REGION_NAME ++
        ".html\"></iframe>" ++ dhSegScriptOpen ++ REGION_NAME ++
        dhSegScriptMid ++ REGION_NAME ++ dhSegTail, ?_⟩,
    ⟨dhSegHead ++ "<title>Wildfire Dashboard - " ++ REGION_NAME ++
        "</title>" ++ dhSegStyle ++ REGION_NAME ++ dhSegPeriodOpen ++
        "Analysis Period: " ++ PRE_FIRE_DATE ++ " to " ++ POST_FIRE_DATE ++
        dhSegOverview ++ fmt2 (area_sqkm area_sqm) ++ " km² (" ++
        fmt2 (area_ha area_sqm) ++ dhSegMethods ++ now_str ++ dhSegMapOpen,
      dhSegScriptOpen ++ REGION_NAME ++ dhSegScriptMid ++ REGION_NAME ++
        dhSegTail, ?_⟩,
    ⟨dhSegHead ++ "<title>Wildfire Dashboard - " ++ REGION_NAME ++
        "</title>" ++ dhSegStyle ++ REGION_NAME ++ dhSegPeriodOpen,
      dhSegOverview ++ fmt2 (area_sqkm area_sqm) ++ " km² (" ++
        fmt2 (area_ha area_sqm) ++ dhSegMethods ++ now_str ++ dhSegMapOpen ++
        "<iframe id=\"mapFrame\" src=\"map_" ++ REGION_NAME ++
        ".html\"></iframe>" ++ dhSegScriptOpen ++ REGION_NAME ++
        dhSegScriptMid ++ REGION_NAME ++ dhSegTail, ?_⟩⟩ <;>
    simp [dashboard_html, String.append_assoc]

end Wildfire
